import Mathlib

/-!
Verification development for a small Flask observability sandbox
(`src/app/app.py`): a web service exposing Prometheus counters, a toggleable
background stress generator, and log submission.  Stateful Python code is
embedded as pure Lean functions with explicit state passing; the random draws
of the background worker are passed in as parameters.
-/

/-- Log severities used by the application (`logger.error` / `warning` / `info`). -/
inductive LogLevel where
  | info
  | warning
  | error
deriving DecidableEq, Repr

/-- A Prometheus `Counter` with one label dimension, as used by
`prometheus_client.Counter(..., ['code'])`: a list of registered label values
(series created by `.labels(...)`) and the current count per label value.
An unregistered label has count 0 and is registered on first use. -/
structure CounterVec where
  registered : List String
  value : String → Nat

/-- The fresh counter, before any `.labels(...)` call. -/
def CounterVec.empty : CounterVec := ⟨[], fun _ => 0⟩

/-- `COUNTER.labels(l).inc(n)`: registers the series for `l` if absent and adds
`n` to its count. -/
def CounterVec.incBy (cv : CounterVec) (l : String) (n : Nat) : CounterVec :=
  ⟨if l ∈ cv.registered then cv.registered else cv.registered ++ [l],
   fun s => if s = l then cv.value s + n else cv.value s⟩

/-- The series this counter exposes on `generate_latest()`: one
(label, count) pair per registered label value. -/
def CounterVec.exportSeries (cv : CounterVec) : List (String × Nat) :=
  cv.registered.map (fun l => (l, cv.value l))

/-- `ALL_CODES` from `app.py` line 25. -/
def ALL_CODES : List String :=
  ["100", "101", "200", "201", "301", "304", "403", "404", "500", "503"]

/-- `ALL_ACTIONS` from `app.py` line 26. -/
def ALL_ACTIONS : List String :=
  ["register", "login", "reset_pass", "delete_acc"]

/-- The mutable process state of `app.py`: the two labelled counters, the
uptime gauge and the stress flag. -/
structure AppState where
  HTTP_CODE_COUNTER : CounterVec
  USER_ACTIONS : CounterVec
  UPTIME_GAUGE : ℚ
  stress_test_active : Bool

/-- The state before the module-level initialisation loops run: bare counters,
gauge 0, stress flag `False` (line 35). -/
def emptyAppState : AppState := ⟨CounterVec.empty, CounterVec.empty, 0, false⟩

/-- The state after module initialisation (lines 28-31): every code in
`ALL_CODES` and every action in `ALL_ACTIONS` gets a zero-valued series via
`.inc(0)`. -/
def initState : AppState :=
  ⟨ALL_CODES.foldl (fun cv c => cv.incBy c 0) CounterVec.empty,
   ALL_ACTIONS.foldl (fun cv a => cv.incBy a 0) CounterVec.empty,
   0, false⟩

/-- Python whitespace stripped by `int(str)`. -/
def isPySpace (c : Char) : Bool :=
  c = ' ' || c = '\t' || c = '\n' || c = '\x0d' || c = '\x0b' || c = '\x0c'

/-- Digit-run parser for Python `int`: digits with single underscores allowed
only between digits; `none` on empty input or a misplaced underscore. -/
def parseDigitsAux : List Char → Nat → Bool → Option Nat
  | [], acc, lastDigit => if lastDigit then some acc else none
  | c :: rest, acc, lastDigit =>
    if c.isDigit then parseDigitsAux rest (10 * acc + (c.toNat - 48)) true
    else if c = '_' then
      if lastDigit then parseDigitsAux rest acc false else none
    else none

/-- Parse a nonempty run of decimal digits (with Python underscore rules). -/
def parseDigits (cs : List Char) : Option Nat := parseDigitsAux cs 0 false

/-- Model of Python's `int(s)` on a string: strip surrounding whitespace,
optional sign, then a digit run; `none` exactly when `int` would raise. -/
def pyInt (s : String) : Option Int :=
  let cs := ((s.toList.dropWhile isPySpace).reverse.dropWhile isPySpace).reverse
  match cs with
  | '+' :: rest => (parseDigits rest).map Int.ofNat
  | '-' :: rest => (parseDigits rest).map (fun n => -(n : Int))
  | rest => (parseDigits rest).map Int.ofNat

/-- Python `str.lower()` at the ASCII level, mapping over the characters. -/
def strLower (s : String) : String := ⟨s.data.map Char.toLower⟩

/-- Python `str.upper()` at the ASCII level, mapping over the characters. -/
def strUpper (s : String) : String := ⟨s.data.map Char.toUpper⟩

/-- Result of the `/log` handler: HTTP body, HTTP status, and the log record
written to stdout (level and formatted message). -/
structure LogResult where
  body : String
  status : Nat
  logged : LogLevel × String
deriving DecidableEq, Repr

/-- `handle_log` (`app.py` lines 220-233).  Form fields are optional; defaults
follow `request.form.get`.  Flask returns a bare string as HTTP 200. -/
def handle_log (message level : Option String) : LogResult :=
  let log_msg := message.getD "No message content"
  let log_lvl := strLower (level.getD "info")
  let logged : LogLevel × String :=
    if log_lvl = "error" then (LogLevel.error, "Manual Entry: " ++ log_msg)
    else if log_lvl = "warning" then (LogLevel.warning, "Manual Entry: " ++ log_msg)
    else (LogLevel.info, "Manual Entry: " ++ log_msg)
  ⟨"Success: Sent as " ++ strUpper log_lvl, 200, logged⟩

/-- Response of the `/status` handler: body text and HTTP status code (the
status is the raw Python `int`, so it may be any integer). -/
structure StatusResult where
  body : String
  status : Int
deriving DecidableEq, Repr

/-- `handle_status` (`app.py` lines 235-247): the counter increment on the
submitted code string happens unconditionally before any validation; then
codes 100/101/304 answer 200, other parseable codes echo themselves as the
HTTP status, and an unparseable code answers 400 "Invalid code". -/
def handle_status (codeParam : Option String) (st : AppState) :
    StatusResult × AppState :=
  let code_val := codeParam.getD "200"
  let st2 := { st with
    HTTP_CODE_COUNTER := st.HTTP_CODE_COUNTER.incBy code_val 1 }
  let res : StatusResult :=
    if code_val ∈ (["100", "101", "304"] : List String) then
      ⟨"HTTP " ++ code_val ++ " recorded", 200⟩
    else
      match pyInt code_val with
      | some n => ⟨"HTTP " ++ code_val ++ " recorded", n⟩
      | none => ⟨"Invalid code", 400⟩
  (res, st2)

/-- `handle_action` (`app.py` lines 249-253). -/
def handle_action (actionParam : Option String) (st : AppState) :
    String × AppState :=
  let act_name := actionParam.getD "unknown"
  ("Business Action \x27" ++ act_name ++ "\x27 tracked",
   { st with USER_ACTIONS := st.USER_ACTIONS.incBy act_name 1 })

/-- `handle_stress` (`app.py` lines 255-259): flips the flag and returns the
new value as the JSON field `active`.  First component: new state; second:
the `active` field of the response. -/
def handle_stress (stress_test_active : Bool) : Bool × Bool :=
  (!stress_test_active, !stress_test_active)

/-- `handle_metrics` (`app.py` lines 261-263): the exposition lists every
registered series of both counters.  Each entry is
(metric name, label value, count); second component is the HTTP status. -/
def handle_metrics (st : AppState) : List (String × String × Nat) × Nat :=
  ((st.HTTP_CODE_COUNTER.exportSeries.map
      (fun p => ("app_http_codes_total", p.1, p.2))) ++
   (st.USER_ACTIONS.exportSeries.map
      (fun p => ("business_user_actions_total", p.1, p.2))), 200)

/-- `random.choice(ALL_CODES)`: the element at a uniformly drawn index. -/
def chooseCode (i : Fin 10) : String :=
  ALL_CODES.get ⟨i.val, by simp [ALL_CODES]⟩

/-- `random.choice(ALL_ACTIONS)`: the element at a uniformly drawn index. -/
def chooseAction (j : Fin 4) : String :=
  ALL_ACTIONS.get ⟨j.val, by simp [ALL_ACTIONS]⟩

/-- Observable outcome of one iteration of the `monitor_worker` loop body:
the state afterwards, the log line emitted (if any), and the sleep length. -/
structure IterResult where
  state : AppState
  emitted : Option (LogLevel × String)
  sleepSeconds : ℚ

/-- One iteration of the `monitor_worker` loop (`app.py` lines 40-63).
`now` and `startTime` model `time.time()` and `start_time`; `i`, `j` are the
indices drawn by the two `random.choice` calls and `r` the value of
`random.random()` (only consumed when the stress flag is set). -/
def monitor_iteration (st : AppState) (now startTime : ℚ)
    (i : Fin 10) (j : Fin 4) (r : ℚ) : IterResult :=
  let st1 := { st with UPTIME_GAUGE := now - startTime }
  if st1.stress_test_active then
    let c := chooseCode i
    let a := chooseAction j
    let st2 := { st1 with
      HTTP_CODE_COUNTER := st1.HTTP_CODE_COUNTER.incBy c 1,
      USER_ACTIONS := st1.USER_ACTIONS.incBy a 1 }
    let emitted : Option (LogLevel × String) :=
      if r < 1/10 then
        some (LogLevel.error,
          "STRESS-TEST: Critical system failure detected for action " ++ a)
      else if r < 3/10 then
        some (LogLevel.warning,
          "STRESS-TEST: Slow response time for action " ++ a ++
            " with code " ++ c)
      else if r < 6/10 then
        some (LogLevel.info, "STRESS-TEST: User successfully executed " ++ a)
      else none
    ⟨st2, emitted, 3/10⟩
  else
    ⟨st1, none, 1⟩

/-- Pointwise comparison of all counter series of two states; the order in
which counter monotonicity is stated. -/
def countersLe (a b : AppState) : Prop :=
  (∀ s, a.HTTP_CODE_COUNTER.value s ≤ b.HTTP_CODE_COUNTER.value s) ∧
  (∀ s, a.USER_ACTIONS.value s ≤ b.USER_ACTIONS.value s)

/-- A state with the stress flag on, used to exercise the active branch. -/
def stressOn : AppState := { initState with stress_test_active := true }

/-- Incrementing one label never decreases any series. -/
theorem CounterVec.incBy_le (cv : CounterVec) (l : String) (n : Nat)
    (s : String) : cv.value s ≤ (cv.incBy l n).value s := by
  unfold CounterVec.incBy
  by_cases h : s = l <;> simp [h]

/-- Claim C1 counterexample: submitting level "debug" logs at info level, but
the confirmation string echoes "DEBUG", not the resolved level "INFO" — so the
claim's "the returned confirmation string echoes the resolved level" is false
on the code. -/
theorem handle_log_echo_cex :
    (handle_log (some "hello") (some "debug")).logged.1 = LogLevel.info ∧
    (handle_log (some "hello") (some "debug")).body = "Success: Sent as DEBUG" ∧
    (handle_log (some "hello") (some "debug")).body ≠ "Success: Sent as INFO" := by
  refine ⟨rfl, rfl, ?_⟩
  decide

/-- Claim C1 (amended): every POST to `/log` succeeds with HTTP 200; an
unrecognized level string is logged at info level; and the confirmation string
echoes the SUBMITTED level, lowercased then uppercased (not the resolved
level). -/
theorem handle_log_amended (message level : Option String) :
    (handle_log message level).status = 200 ∧
    (handle_log message level).body =
      "Success: Sent as " ++ strUpper (strLower (level.getD "info")) ∧
    (strLower (level.getD "info") ≠ "error" →
      strLower (level.getD "info") ≠ "warning" →
      (handle_log message level).logged.1 = LogLevel.info) := by
  refine ⟨rfl, rfl, fun h1 h2 => ?_⟩
  unfold handle_log
  simp [h1, h2]

/-- Claim C1 witness: concrete run of the amended statement at level
"debug". -/
theorem handle_log_amended_witness :
    (handle_log (some "hello") (some "debug")).status = 200 ∧
    (handle_log (some "hello") (some "debug")).logged.1 = LogLevel.info := by
  have h := handle_log_amended (some "hello") (some "debug")
  exact ⟨h.1, h.2.2 (by decide) (by decide)⟩

/-- Claim C2 counterexample: the first toggle starting from the idle (false)
state returns `active = true`, not `false` as the claimed three-response
sequence (false, true, false) requires. -/
theorem handle_stress_first_toggle_cex :
    (handle_stress false).2 = true ∧ (handle_stress false).2 ≠ false := by
  decide

/-- Claim C2 (amended): the toggle flips the stress-state boolean and returns
the new state; toggling twice returns the state to its original value; and
three successive toggles starting from idle (false) return `active = true`,
then `false`, then `true`. -/
theorem handle_stress_amended (b : Bool) :
    (handle_stress b).1 = !b ∧
    (handle_stress b).2 = (handle_stress b).1 ∧
    (handle_stress (handle_stress b).1).1 = b ∧
    ((handle_stress false).2 = true ∧
      (handle_stress (handle_stress false).1).2 = false ∧
      (handle_stress (handle_stress (handle_stress false).1).1).2 = true) := by
  cases b <;> decide

/-- Claim C3: a GET to `/status` whose code is not one of "100"/"101"/"304"
and does not parse as a Python integer answers HTTP 400 with body exactly
"Invalid code". -/
theorem handle_status_invalid (s : String) (st : AppState)
    (h1 : s ∉ (["100", "101", "304"] : List String))
    (h2 : pyInt s = none) :
    (handle_status (some s) st).1 = ⟨"Invalid code", 400⟩ := by
  unfold handle_status
  simp [h1, h2]

/-- Claim C3 witness: code "abc" on the freshly initialised state. -/
theorem handle_status_invalid_witness :
    (handle_status (some "abc") initState).1 = ⟨"Invalid code", 400⟩ :=
  handle_status_invalid "abc" initState (by decide) rfl

/-- Claim C4: a GET to `/status` with code "100", "101" or "304" answers
HTTP 200 with a body naming the code; any other code that parses as an
integer answers with that integer as the HTTP status and a body naming the
code. -/
theorem handle_status_valid (s : String) (st : AppState) :
    (s ∈ (["100", "101", "304"] : List String) →
      (handle_status (some s) st).1 = ⟨"HTTP " ++ s ++ " recorded", 200⟩) ∧
    (∀ n : Int, s ∉ (["100", "101", "304"] : List String) →
      pyInt s = some n →
      (handle_status (some s) st).1 = ⟨"HTTP " ++ s ++ " recorded", n⟩) := by
  constructor
  · intro h
    unfold handle_status
    simp [h]
  · intro n h1 h2
    unfold handle_status
    simp [h1, h2]

/-- Claim C4 witness: code "100" answers 200, code "404" answers 404. -/
theorem handle_status_valid_witness :
    (handle_status (some "100") initState).1 = ⟨"HTTP 100 recorded", 200⟩ ∧
    (handle_status (some "404") initState).1 = ⟨"HTTP 404 recorded", 404⟩ :=
  ⟨(handle_status_valid "100" initState).1 (by decide),
   (handle_status_valid "404" initState).2 404 (by decide) rfl⟩

/-- Claim C5: on a tick with the stress flag set, exactly the chosen code
series and exactly the chosen action series are incremented by 1 (all other
series are unchanged); the choice maps are injections onto the fixed 10- and
4-element sets (so a uniform index draw is a uniform draw over the set); and
the emitted log follows the thresholds r < 1/10 error, r < 3/10 warning,
r < 6/10 info, otherwise nothing. -/
theorem monitor_iteration_active (st : AppState) (now startTime : ℚ)
    (i : Fin 10) (j : Fin 4) (r : ℚ)
    (hact : st.stress_test_active = true) (_h0 : 0 ≤ r) (_h1 : r < 1) :
    (∀ s, (monitor_iteration st now startTime i j r).state.HTTP_CODE_COUNTER.value s =
      st.HTTP_CODE_COUNTER.value s + (if s = chooseCode i then 1 else 0)) ∧
    (∀ s, (monitor_iteration st now startTime i j r).state.USER_ACTIONS.value s =
      st.USER_ACTIONS.value s + (if s = chooseAction j then 1 else 0)) ∧
    chooseCode i ∈ ALL_CODES ∧ chooseAction j ∈ ALL_ACTIONS ∧
    Function.Injective chooseCode ∧ Function.Injective chooseAction ∧
    (monitor_iteration st now startTime i j r).emitted =
      (if r < 1/10 then
        some (LogLevel.error,
          "STRESS-TEST: Critical system failure detected for action " ++
            chooseAction j)
      else if r < 3/10 then
        some (LogLevel.warning,
          "STRESS-TEST: Slow response time for action " ++ chooseAction j ++
            " with code " ++ chooseCode i)
      else if r < 6/10 then
        some (LogLevel.info,
          "STRESS-TEST: User successfully executed " ++ chooseAction j)
      else none) := by
  refine ⟨?_, ?_, ?_, ?_, ?_, ?_, ?_⟩
  · intro s
    by_cases hs : s = chooseCode i <;>
      simp [monitor_iteration, hact, CounterVec.incBy, hs]
  · intro s
    by_cases hs : s = chooseAction j <;>
      simp [monitor_iteration, hact, CounterVec.incBy, hs]
  · exact List.get_mem _ _ _
  · exact List.get_mem _ _ _
  · decide
  · decide
  · simp [monitor_iteration, hact]

/-- Claim C5 witness: a concrete active tick with i = 0, j = 0, r = 0
increments the "100" code series and the "register" action series by one and
emits the error-level stress log line. -/
theorem monitor_iteration_active_witness :
    (monitor_iteration stressOn 5 2 0 0 0).state.HTTP_CODE_COUNTER.value "100" =
      stressOn.HTTP_CODE_COUNTER.value "100" + 1 ∧
    (monitor_iteration stressOn 5 2 0 0 0).state.USER_ACTIONS.value "register" =
      stressOn.USER_ACTIONS.value "register" + 1 ∧
    (monitor_iteration stressOn 5 2 0 0 0).emitted =
      some (LogLevel.error,
        "STRESS-TEST: Critical system failure detected for action register") := by
  have h := monitor_iteration_active stressOn 5 2 0 0 0 rfl (by norm_num)
    (by norm_num)
  refine ⟨?_, ?_, ?_⟩
  · have hc := h.1 "100"
    simpa [chooseCode, ALL_CODES] using hc
  · have ha := h.2.1 "register"
    simpa [chooseAction, ALL_ACTIONS] using ha
  · have he := h.2.2.2.2.2.2
    rw [he]
    norm_num [chooseAction, ALL_ACTIONS]
    decide

/-- Claim C6: after module initialisation and before any traffic, every code
of the fixed 10-element set and every action of the fixed 4-element set has a
series of value zero, and the metrics export lists each of those zero-valued
series. -/
theorem init_zero_series :
    (∀ c ∈ ALL_CODES,
      initState.HTTP_CODE_COUNTER.value c = 0 ∧
      ("app_http_codes_total", c, 0) ∈ (handle_metrics initState).1) ∧
    (∀ a ∈ ALL_ACTIONS,
      initState.USER_ACTIONS.value a = 0 ∧
      ("business_user_actions_total", a, 0) ∈ (handle_metrics initState).1) := by
  decide

/-- Claim C6 witness: the zero series for code "100" and action "register". -/
theorem init_zero_series_witness :
    initState.HTTP_CODE_COUNTER.value "100" = 0 ∧
    ("app_http_codes_total", "100", 0) ∈ (handle_metrics initState).1 ∧
    initState.USER_ACTIONS.value "register" = 0 ∧
    ("business_user_actions_total", "register", 0) ∈
      (handle_metrics initState).1 := by
  have h := init_zero_series
  exact ⟨(h.1 "100" (by decide)).1, (h.1 "100" (by decide)).2,
    (h.2 "register" (by decide)).1, (h.2 "register" (by decide)).2⟩

/-- Claim C7: counter monotonicity — module initialisation, the `/status`
handler, the `/action` handler and a monitor-loop tick each leave every
counter series at a value greater than or equal to its previous value. -/
theorem counters_monotone (st : AppState) (codeParam actionParam : Option String)
    (now startTime r : ℚ) (i : Fin 10) (j : Fin 4) :
    countersLe emptyAppState initState ∧
    countersLe st (handle_status codeParam st).2 ∧
    countersLe st (handle_action actionParam st).2 ∧
    countersLe st (monitor_iteration st now startTime i j r).state := by
  refine ⟨⟨fun s => ?_, fun s => ?_⟩, ⟨fun s => ?_, fun s => ?_⟩,
    ⟨fun s => ?_, fun s => ?_⟩, ⟨fun s => ?_, fun s => ?_⟩⟩
  · simp [emptyAppState, CounterVec.empty]
  · simp [emptyAppState, CounterVec.empty]
  · simpa [handle_status] using st.HTTP_CODE_COUNTER.incBy_le _ 1 s
  · simp [handle_status]
  · simp [handle_action]
  · simpa [handle_action] using st.USER_ACTIONS.incBy_le _ 1 s
  · cases hb : st.stress_test_active <;>
      simp [monitor_iteration, hb, CounterVec.incBy_le]
  · cases hb : st.stress_test_active <;>
      simp [monitor_iteration, hb, CounterVec.incBy_le]

/-- Claim C8: on a loop iteration with the stress flag off, only the uptime
gauge changes — it is set to the elapsed wall-clock time — while both
counters and the flag are untouched, no log line is emitted, and the sleep is
the idle 1 second. -/
theorem monitor_iteration_idle (st : AppState) (now startTime : ℚ)
    (i : Fin 10) (j : Fin 4) (r : ℚ)
    (h : st.stress_test_active = false) :
    (monitor_iteration st now startTime i j r).state.UPTIME_GAUGE =
      now - startTime ∧
    (monitor_iteration st now startTime i j r).state.HTTP_CODE_COUNTER =
      st.HTTP_CODE_COUNTER ∧
    (monitor_iteration st now startTime i j r).state.USER_ACTIONS =
      st.USER_ACTIONS ∧
    (monitor_iteration st now startTime i j r).state.stress_test_active =
      st.stress_test_active ∧
    (monitor_iteration st now startTime i j r).emitted = none ∧
    (monitor_iteration st now startTime i j r).sleepSeconds = 1 := by
  simp [monitor_iteration, h]

/-- Claim C8 witness: a concrete idle iteration on the initial state. -/
theorem monitor_iteration_idle_witness :
    (monitor_iteration initState 5 2 0 0 0).state.UPTIME_GAUGE = 5 - 2 ∧
    (monitor_iteration initState 5 2 0 0 0).state.HTTP_CODE_COUNTER =
      initState.HTTP_CODE_COUNTER ∧
    (monitor_iteration initState 5 2 0 0 0).emitted = none ∧
    (monitor_iteration initState 5 2 0 0 0).sleepSeconds = 1 := by
  have h := monitor_iteration_idle initState 5 2 0 0 0 rfl
  exact ⟨h.1, h.2.1, h.2.2.2.2.1, h.2.2.2.2.2⟩

/-- Claim C9: every GET to `/status` increments the series labelled with the
exact submitted code string by 1 — including a request whose code is invalid
and is answered 400 "Invalid code": the registry is changed even on the error
path. -/
theorem handle_status_always_increments (s : String) (st : AppState) :
    ((handle_status (some s) st).2).HTTP_CODE_COUNTER.value s =
      st.HTTP_CODE_COUNTER.value s + 1 ∧
    (s ∉ (["100", "101", "304"] : List String) → pyInt s = none →
      (handle_status (some s) st).1 = ⟨"Invalid code", 400⟩ ∧
      ((handle_status (some s) st).2).HTTP_CODE_COUNTER.value s =
        st.HTTP_CODE_COUNTER.value s + 1) := by
  have hinc : ((handle_status (some s) st).2).HTTP_CODE_COUNTER.value s =
      st.HTTP_CODE_COUNTER.value s + 1 := by
    simp [handle_status, CounterVec.incBy]
  refine ⟨hinc, fun h1 h2 => ⟨?_, hinc⟩⟩
  unfold handle_status
  simp [h1, h2]

/-- Claim C9 witness: the invalid code "abc" is counted even though the
response is 400 "Invalid code". -/
theorem handle_status_always_increments_witness :
    ((handle_status (some "abc") initState).2).HTTP_CODE_COUNTER.value "abc" =
      initState.HTTP_CODE_COUNTER.value "abc" + 1 ∧
    (handle_status (some "abc") initState).1 = ⟨"Invalid code", 400⟩ := by
  have h := handle_status_always_increments "abc" initState
  exact ⟨h.1, (h.2 (by decide) rfl).1⟩

/-- Claim C10: a GET to `/status` without a code parameter defaults to
"200": the "200" series is incremented by 1 and the response is HTTP 200
with body "HTTP 200 recorded". -/
theorem handle_status_default (st : AppState) :
    (handle_status none st).1 = ⟨"HTTP 200 recorded", 200⟩ ∧
    ((handle_status none st).2).HTTP_CODE_COUNTER.value "200" =
      st.HTTP_CODE_COUNTER.value "200" + 1 := by
  constructor
  · rfl
  · simp [handle_status, CounterVec.incBy]
